import Mathlib

/-!
Shallow embedding of the aurl token-lifecycle manager and authenticated-request
dispatcher (src/oauth2.rs, src/request.rs, src/profile.rs), together with
theorems settling the specification claims.

Conventions of the embedding:
* Rust `Option<T>` becomes `Option T`; `Result<T, E>` becomes `Except E T`.
* A Rust `unwrap()` that can fail is modelled by the `Outcome.aborts`
  constructor (the process dies); code that cannot abort returns `Outcome.ok`.
* The filesystem visible to the token cache is an association list from path
  strings to parsed JSON documents (`FS`); serde serialization is modelled at
  the JSON-value level by `AccessToken.to_json` / `AccessToken.from_json`.
* Wall-clock reads (`SystemTime::now`) and per-attempt network responses are
  passed in as explicit parameters.
-/

namespace Aurl

/-- Result of running Rust code that may die in `unwrap()`. -/
inductive Outcome (α : Type)
  | aborts (msg : String)
  | ok (a : α)
deriving Repr

/-- src/profile.rs `enum InvalidConfig` (the tini error is kept as a string). -/
inductive InvalidConfig
  | MissingFields (s : String)
  | IniFileError (e : String)
  | InvalidGrantType (s : String)
deriving DecidableEq, Repr

/-- src/oauth2.rs `enum GrantType`. -/
inductive GrantType
  | Password
  | AuthorizationCode
  | ClientCredentials
deriving DecidableEq, Repr

/-- src/oauth2.rs `impl FromStr for GrantType` (the string `match` is translated
arm by arm into an if-chain; Rust string matches are case-sensitive). -/
def GrantType.from_str (s : String) : Except InvalidConfig GrantType :=
  if s = "password" then .ok .Password
  else if s = "authorization_code" then .ok .AuthorizationCode
  else if s = "auth" then .ok .AuthorizationCode
  else if s = "client_credentials" then .ok .ClientCredentials
  else if s = "client" then .ok .ClientCredentials
  else .error (.InvalidGrantType s)

/-- Model of `reqwest::Error` as the dispatcher observes it: `e.status()`. -/
structure HttpErr where
  status : Option Nat
deriving DecidableEq, Repr

/-- src/oauth2.rs `enum AccessTokenError`. -/
inductive AccessTokenError
  | InvalidCache (s : String)
  | InvalidConfig (s : String)
  | HttpError (e : HttpErr)
deriving DecidableEq, Repr

/-- Rust `str::split(sep)`: split a character list at every occurrence of the
separator (an empty input yields one empty part, as in Rust). -/
def splitOnChar (sep : Char) : List Char → List (List Char)
  | [] => [[]]
  | c :: rest =>
      if c = sep then [] :: splitOnChar sep rest
      else
        match splitOnChar sep rest with
        | [] => [[c]]
        | g :: gs => (c :: g) :: gs

/-- Strip `pat` from the front of `hay`, returning the rest on a match. -/
def stripLead : List Char → List Char → Option (List Char)
  | [], hay => some hay
  | _ :: _, [] => none
  | p :: ps, c :: rest => if p = c then stripLead ps rest else none

/-- Rust `str::contains(pat)`: some suffix of `hay` starts with `pat`. -/
def containsSeq (pat : List Char) : List Char → Bool
  | [] => pat.isEmpty
  | c :: rest => (stripLead pat (c :: rest)).isSome || containsSeq pat rest

/-- Rust `str::replace(pat, rep)` on character lists, driven by fuel so the
recursion is structural (fuel = input length always suffices for the nonempty
patterns the program uses). -/
def replaceFuel : Nat → List Char → List Char → List Char → List Char
  | 0, hay, _, _ => hay
  | _ + 1, [], _, _ => []
  | fuel + 1, c :: rest, pat, rep =>
      match stripLead pat (c :: rest) with
      | some remaining => rep ++ replaceFuel fuel remaining pat rep
      | none => c :: replaceFuel fuel rest pat rep

/-- Rust `str::replace(pat, rep)`. -/
def replaceChars (hay pat rep : List Char) : List Char :=
  replaceFuel hay.length hay pat rep

/-- Rust `str::to_lowercase` (ASCII range; the program's inputs are ASCII). -/
def toLowerChars (l : List Char) : List Char := l.map Char.toLower

/-- Rust `str::trim`: drop whitespace from both ends. -/
def trimChars (l : List Char) : List Char :=
  ((l.dropWhile Char.isWhitespace).reverse.dropWhile Char.isWhitespace).reverse

/-- src/request.rs `split_custom_header`: the template is split on `=`; with
exactly two parts whose value side contains the case-insensitive `$token`
placeholder, the header name and the trimmed, lower-cased value with the
placeholder replaced by the access token are returned; otherwise an
`InvalidConfig` error. -/
def split_custom_header (template : String) (access_token : String) :
    Except AccessTokenError (String × String) :=
  match splitOnChar '=' template.toList with
  | [h, v] =>
      if !(containsSeq ("$token".toList) (toLowerChars v)) then
        .error (.InvalidConfig "cant find $token placeholder")
      else
        .ok (⟨h⟩,
             ⟨replaceChars (toLowerChars (trimChars v)) ("$token".toList) access_token.toList⟩)
  | _ => .error (.InvalidConfig "invalid custom_header_template")

/-- A parsed URL as the redirect policy sees it (scheme/host/port make up the
origin; the rest of the URL is carried as `path`). -/
structure Url where
  scheme : String
  host : String
  port : Nat
  path : String
deriving DecidableEq, Repr

/-- `url::Origin` of a URL: scheme + host + port. -/
def Url.origin (u : Url) : String × String × Nat := (u.scheme, u.host, u.port)

/-- Decision returned for one redirect hop (`attempt.follow()` / `attempt.stop()`). -/
inductive Decision
  | follow
  | stop
deriving DecidableEq, Repr

/-- src/request.rs `same_origin_redirect_policy`.  `previous` is the chain of
previously visited URLs in order (the head is the original request URL, which
is what `attempt.previous().get(0)` yields); `next` is `attempt.url()`. -/
def same_origin_redirect_policy (previous : List Url) (next : Url) : Decision :=
  match previous.head? with
  | some prev =>
      if previous.length > 5 then .stop
      else if prev.origin ≠ next.origin then .stop
      else .follow
  | none => .stop

/-- Index of the last occurrence of a dot in a character list, if any. -/
def lastDotAux : List Char → Option Nat
  | [] => none
  | c :: rest =>
      match lastDotAux rest with
      | some i => some (i + 1)
      | none => if c = '.' then some 0 else none

/-- Rust `PathBuf::set_extension("json")` on a bare file name: the portion after
the last dot is replaced by `json`; a name with no dot, or whose only dot is
leading (a hidden file), gets `.json` appended. -/
def set_extension_json (f : String) : String :=
  match lastDotAux f.toList with
  | none => f ++ ".json"
  | some 0 => f ++ ".json"
  | some (i + 1) => (f.take (i + 1)) ++ ".json"

/-- src/oauth2.rs `AccessToken::basedir` (`dirs::home_dir()` is the `home`
parameter; paths are modelled as strings with `/` separators as `PathBuf::push`
produces them). -/
def AccessToken.basedir (home : String) : String := home ++ "/.aurl"

/-- src/oauth2.rs `AccessToken::cache_file`: push `token`, push the profile,
then `set_extension("json")`. -/
def AccessToken.cache_file (home : String) (profile : String) : String :=
  AccessToken.basedir home ++ "/token/" ++ set_extension_json profile

/-- JSON values, as far as the token cache record needs them. -/
inductive Json
  | null
  | str (s : String)
  | num (n : Nat)
  | obj (fields : List (String × Json))

/-- Field lookup in a JSON object body. -/
def lookupField : List (String × Json) → String → Option Json
  | [], _ => none
  | (q, v) :: rest, k => if q = k then some v else lookupField rest k

/-- Field lookup on a JSON value (objects only). -/
def Json.getField (j : Json) (k : String) : Option Json :=
  match j with
  | .obj fields => lookupField fields k
  | _ => none

def Json.asStr : Json → Option String
  | .str s => some s
  | _ => none

def Json.asNum : Json → Option Nat
  | .num n => some n
  | _ => none

/-- serde: a required `String` field. -/
def reqStr (j : Json) (k : String) : Option String := (j.getField k).bind Json.asStr

/-- serde: a required `u64` field. -/
def reqNum (j : Json) (k : String) : Option Nat := (j.getField k).bind Json.asNum

/-- serde: an `Option<String>` field — absent or `null` reads as `none`. -/
def optStrField (j : Json) (k : String) : Option (Option String) :=
  match j.getField k with
  | none => some none
  | some .null => some none
  | some (.str s) => some (some s)
  | some _ => none

/-- serde: an `Option<u64>` field — absent or `null` reads as `none`. -/
def optNumField (j : Json) (k : String) : Option (Option Nat) :=
  match j.getField k with
  | none => some none
  | some .null => some none
  | some (.num n) => some (some n)
  | some _ => none

/-- src/oauth2.rs `struct AccessToken` (u64 fields become `Nat`). -/
structure AccessToken where
  access_token : String
  token_type : String
  refresh_token : Option String
  expires_in : Nat
  scope : Option String
  id_token : Option String
  ttl : Option Nat
deriving DecidableEq, Repr

def optStrJson : Option String → Json
  | some s => .str s
  | none => .null

def optNumJson : Option Nat → Json
  | some n => .num n
  | none => .null

/-- `serde_json::to_string(&self)` for `AccessToken` (derived `Serialize`):
every field is emitted, `None` as `null`. -/
def AccessToken.to_json (t : AccessToken) : Json :=
  .obj [("access_token", .str t.access_token),
        ("token_type", .str t.token_type),
        ("refresh_token", optStrJson t.refresh_token),
        ("expires_in", .num t.expires_in),
        ("scope", optStrJson t.scope),
        ("id_token", optStrJson t.id_token),
        ("ttl", optNumJson t.ttl)]

/-- `serde_json::from_reader` for `AccessToken` (derived `Deserialize`):
required fields must be present with the right type; `Option` fields accept
absence and `null`. -/
def AccessToken.from_json (j : Json) : Option AccessToken := do
  let access_token ← reqStr j "access_token"
  let token_type ← reqStr j "token_type"
  let refresh_token ← optStrField j "refresh_token"
  let expires_in ← reqNum j "expires_in"
  let scope ← optStrField j "scope"
  let id_token ← optStrField j "id_token"
  let ttl ← optNumField j "ttl"
  some ⟨access_token, token_type, refresh_token, expires_in, scope, id_token, ttl⟩

/-- The filesystem as the token cache sees it: path → parsed JSON document. -/
abbrev FS := List (String × Json)

/-- Read a file (`File::open` + parse succeeded iff the path is present). -/
def fsRead : FS → String → Option Json
  | [], _ => none
  | (q, v) :: rest, p => if q = p then some v else fsRead rest p

/-- Create a file with the given contents. -/
def fsWrite (fs : FS) (p : String) (v : Json) : FS := (p, v) :: fs

/-- Delete a file if present (no effect when absent). -/
def fsDelete (fs : FS) (p : String) : FS := fs.filter (fun e => e.1 != p)

/-- src/oauth2.rs `AccessToken::calc_ttl`: epoch seconds now plus `expires_in`
(`SystemTime::now` is the explicit `now` parameter). -/
def AccessToken.calc_ttl (now : Nat) (expires_in : Nat) : Nat := now + expires_in

/-- src/oauth2.rs `AccessToken::load_cache`: on `File::open` failure (missing
file) return `none`; on a file that does not deserialize, the source calls
`serde_json::from_reader(reader).unwrap()` and dies. -/
def AccessToken.load_cache (home : String) (fs : FS) (profile : String) :
    Outcome (Option AccessToken) :=
  match fsRead fs (AccessToken.cache_file home profile) with
  | some doc =>
      match AccessToken.from_json doc with
      | some token => .ok (some token)
      | none => .aborts "load_cache: unwrap on serde_json::from_reader error"
  | none => .ok none

/-- src/oauth2.rs `AccessToken::save_cache`: the cache file is opened with
`OpenOptions::new().write(true).create_new(true).open(path).unwrap()` — when the
file already exists `create_new` fails and the `unwrap()` dies before anything
is written.  Otherwise `ttl` is set to `calc_ttl` and the serialized record is
written (a `write_all` I/O failure, the source's only `Err` return, has no
counterpart in the `FS` model, so the write branch always succeeds here). -/
def AccessToken.save_cache (home : String) (now : Nat) (t : AccessToken)
    (fs : FS) (profile : String) :
    Outcome (Except AccessTokenError (AccessToken × FS)) :=
  let path := AccessToken.cache_file home profile
  match fsRead fs path with
  | some _ => .aborts "save_cache: unwrap on create_new open error"
  | none =>
      let t' := { t with ttl := some (AccessToken.calc_ttl now t.expires_in) }
      .ok (.ok (t', fsWrite fs path t'.to_json))

/-- Modelled from the spec: `AccessToken::remove_cache` is called by the
dispatcher (src/request.rs line 127) but its definition is not among the
provided source files.  Spec §4.1: "`remove(profile)`: deletes the cached file
if present; idempotent, silent on absence." -/
def AccessToken.remove_cache (home : String) (fs : FS) (profile : String) : FS :=
  fsDelete fs (AccessToken.cache_file home profile)

/-- src/oauth2.rs `struct OAuth2Config` (the `default_auth_header_template`
field is read by src/request.rs and filled by src/profile.rs). -/
structure OAuth2Config where
  auth_server_auth_endpoint : Option String
  auth_server_token_endpoint : Option String
  client_id : Option String
  client_secret : Option String
  scopes : Option String
  username : Option String
  password : Option String
  grant_type : GrantType
  redirect : Option String
  default_content_type : Option String
  default_user_agent : Option String
  default_auth_header_template : Option String

/-- src/oauth2.rs free function `ok_or`: absent field → `InvalidConfig`
error naming the field. -/
def ok_or {T : Type} (v : Option T) (fname : String) : Except AccessTokenError T :=
  match v with
  | some t => .ok t
  | none => .error (.InvalidConfig fname)

/-- Accessor `OAuth2Config::auth_server_auth_endpoint` (primed: the Rust method
shares its name with the field). -/
def OAuth2Config.auth_server_auth_endpoint' (c : OAuth2Config) : Except AccessTokenError String :=
  ok_or c.auth_server_auth_endpoint "auth_server_auth_endpoint"

/-- Accessor `OAuth2Config::auth_server_token_endpoint`. -/
def OAuth2Config.auth_server_token_endpoint' (c : OAuth2Config) : Except AccessTokenError String :=
  ok_or c.auth_server_token_endpoint "auth_server_token_endpoint"

/-- Accessor `OAuth2Config::client_id`. -/
def OAuth2Config.client_id' (c : OAuth2Config) : Except AccessTokenError String :=
  ok_or c.client_id "client_id"

/-- Accessor `OAuth2Config::username`. -/
def OAuth2Config.username' (c : OAuth2Config) : Except AccessTokenError String :=
  ok_or c.username "username"

/-- Accessor `OAuth2Config::password`. -/
def OAuth2Config.password' (c : OAuth2Config) : Except AccessTokenError String :=
  ok_or c.password "password"

/-- Accessor `OAuth2Config::scopes`. -/
def OAuth2Config.scopes' (c : OAuth2Config) : Except AccessTokenError String :=
  ok_or c.scopes "scopes"

/-- Accessor `OAuth2Config::redirect`. -/
def OAuth2Config.redirect' (c : OAuth2Config) : Except AccessTokenError String :=
  ok_or c.redirect "redirect"

/-- Modelled from the spec: `version::name` (src/version.rs is not among the
provided source files).  Spec §4.2: the User-Agent fallback is "a fixed product
identifier". -/
def version_name : String := "aurl"

/-- Description of the one token-endpoint POST a grant flow would send:
endpoint, HTTP Basic credentials, User-Agent, and the form body. -/
structure TokenRequest where
  endpoint : String
  basic_user : String
  basic_pass : Option String
  user_agent : String
  form : List (String × String)
deriving DecidableEq, Repr

/-- src/oauth2.rs `GrantType::get_access_token`, up to the point where the
token-endpoint POST is sent.  Config accessors are evaluated in the source's
left-to-right order, each `?` short-circuiting with the named missing-field
error; an `Except.error` result therefore means no POST was built.  The network
response itself is environment input, so the function returns the request that
would be sent.  For `AuthorizationCode`, the generated `state` and the
authorization code read from standard input are explicit parameters, and the
browser launch (a side effect between the auth-URL construction and the POST)
has no effect on the returned value. -/
def GrantType.get_access_token (gt : GrantType) (config : OAuth2Config)
    (state : String) (auth_code : String) :
    Except AccessTokenError TokenRequest :=
  match gt with
  | .Password => do
      let ep ← config.auth_server_token_endpoint'
      let cid ← config.client_id'
      let ua := config.default_user_agent.getD version_name
      let sc ← config.scopes'
      let un ← config.username'
      let pw ← config.password'
      .ok ⟨ep, cid, config.client_secret, ua,
           [("grant_type", "password"), ("scope", sc), ("username", un), ("password", pw)]⟩
  | .ClientCredentials => do
      let ep ← config.auth_server_token_endpoint'
      let cid ← config.client_id'
      let ua := config.default_user_agent.getD version_name
      let sc ← config.scopes'
      .ok ⟨ep, cid, config.client_secret, ua,
           [("grant_type", "client_credentials"), ("scope", sc)]⟩
  | .AuthorizationCode => do
      let _aep ← config.auth_server_auth_endpoint'
      let _cid ← config.client_id'
      let _sc ← config.scopes'
      let _state := state
      let _red ← config.redirect'
      let ep ← config.auth_server_token_endpoint'
      let cid2 ← config.client_id'
      let ua := config.default_user_agent.getD version_name
      let red2 ← config.redirect'
      .ok ⟨ep, cid2, config.client_secret, ua,
           [("code", auth_code.trim), ("grant_type", "authorization_code"),
            ("redirect_uri", red2)]⟩

/-- The configuration fields a grant variant can demand. -/
inductive Field
  | auth_endpoint
  | token_endpoint
  | client_id
  | scopes
  | username
  | password
  | redirect
deriving DecidableEq, Repr

/-- The name `ok_or` reports for each field. -/
def Field.name : Field → String
  | .auth_endpoint => "auth_server_auth_endpoint"
  | .token_endpoint => "auth_server_token_endpoint"
  | .client_id => "client_id"
  | .scopes => "scopes"
  | .username => "username"
  | .password => "password"
  | .redirect => "redirect"

/-- The value a config holds for each field. -/
def OAuth2Config.fieldVal (c : OAuth2Config) : Field → Option String
  | .auth_endpoint => c.auth_server_auth_endpoint
  | .token_endpoint => c.auth_server_token_endpoint
  | .client_id => c.client_id
  | .scopes => c.scopes
  | .username => c.username
  | .password => c.password
  | .redirect => c.redirect

/-- The fields each grant variant requires, in the order the source's accessors
evaluate them (`client_secret` is never required: it is passed as an `Option`). -/
def requiredFields : GrantType → List Field
  | .Password => [.token_endpoint, .client_id, .scopes, .username, .password]
  | .ClientCredentials => [.token_endpoint, .client_id, .scopes]
  | .AuthorizationCode => [.auth_endpoint, .client_id, .scopes, .redirect, .token_endpoint]

/-- First required field missing from the config, in accessor order. -/
def firstMissing (gt : GrantType) (c : OAuth2Config) : Option Field :=
  (requiredFields gt).find? (fun f => (c.fieldVal f).isNone)

/-- An identifier standing in for the opaque `reqwest::Response`. -/
abbrev Response := Nat

/-- Outcome of one `req.send().await` of the final request, supplied by the
environment per attempt. -/
inductive SendOutcome
  | ok (r : Response)
  | err (e : HttpErr)
deriving DecidableEq, Repr

/-- src/request.rs `enum RequestError`, restricted to what the `send` loop can
return (`InvalidHeader` arises before the loop, in the header-map conversion
that is outside the modelled lines 80-131). -/
inductive SendResult
  | ok (r : Response)
  | errOAuth (e : AccessTokenError)
  | errHttp (e : HttpErr)
deriving DecidableEq, Repr

/-- The credential header attached to the final request. -/
inductive AuthHeader
  | bearer (token : String)
  | custom (hname : String) (hvalue : String)
deriving DecidableEq, Repr

/-- Environment of one `Dispatcher::send` call: home directory, profile,
`oauth2.default_auth_header_template`, the clock, the result of the i-th
`GrantStrategy` invocation, and the outcome of the i-th final-request send. -/
structure SendEnv where
  home : String
  profile : String
  tpl : Option String
  now : Nat
  acquire : Nat → Except AccessTokenError AccessToken
  responses : Nat → SendOutcome

/-- Observable progress of the `send` loop: cache filesystem, number of
final-request attempts sent, number of `GrantStrategy` invocations. -/
structure LoopState where
  fs : FS
  attempts : Nat
  grants : Nat

/-- Result of one iteration of the `loop` in `Dispatcher::send`. -/
inductive StepRes
  | ret (r : SendResult) (s : LoopState)
  | aborts (msg : String) (s : LoopState)
  | again (s : LoopState)

/-- One iteration of the `loop` body of src/request.rs `Dispatcher::send`
(lines 80-131): load the cached token (or invoke the grant strategy on a miss),
save it (`unwrap_or_else(warn)` on an `Err`), attach the credential header
(`split_custom_header(..).unwrap()` when a template is configured), send, and
on an error whose status is 401 remove the cache and go round again. -/
def sendStep (env : SendEnv) (s : LoopState) : StepRes :=
  match AccessToken.load_cache env.home s.fs env.profile with
  | .aborts m => .aborts m s
  | .ok cached =>
      let acq : Except AccessTokenError AccessToken × Nat :=
        match cached with
        | some t => (.ok t, s.grants)
        | none => (env.acquire s.grants, s.grants + 1)
      match acq.1 with
      | .error e => .ret (.errOAuth e) { s with grants := acq.2 }
      | .ok token =>
          match AccessToken.save_cache env.home env.now token s.fs env.profile with
          | .aborts m => .aborts m { s with grants := acq.2 }
          | .ok saveRes =>
              let tfs : AccessToken × FS :=
                match saveRes with
                | .ok p => p
                | .error _ => (token, s.fs)
              let auth_custom_header := env.tpl.getD ""
              let hdr : Outcome AuthHeader :=
                if auth_custom_header ≠ "" then
                  match split_custom_header auth_custom_header tfs.1.access_token with
                  | .ok hv => .ok (.custom hv.1 hv.2)
                  | .error _ => .aborts "send: unwrap on split_custom_header error"
                else .ok (.bearer tfs.1.access_token)
              match hdr with
              | .aborts m => .aborts m { s with fs := tfs.2, grants := acq.2 }
              | .ok _ =>
                  let s' : LoopState :=
                    { fs := tfs.2, attempts := s.attempts + 1, grants := acq.2 }
                  match env.responses s.attempts with
                  | .ok r => .ret (.ok r) s'
                  | .err e =>
                      if e.status == some 401 then
                        .again { s' with
                                 fs := AccessToken.remove_cache env.home s'.fs env.profile }
                      else .ret (.errHttp e) s'

/-- Result of running the `send` loop under bounded fuel: `out` is a `return`
from the loop, `aborts` a died `unwrap()`, and `spin` means the fuel ran out
with the loop still going. -/
inductive LoopRes
  | out (r : SendResult) (s : LoopState)
  | aborts (msg : String) (s : LoopState)
  | spin (s : LoopState)

/-- The `loop` of src/request.rs `Dispatcher::send`, iterated under fuel (the
source has no iteration bound of its own). -/
def sendLoop (env : SendEnv) : Nat → LoopState → LoopRes
  | 0, s => .spin s
  | fuel + 1, s =>
      match sendStep env s with
      | .ret r s' => .out r s'
      | .aborts m s' => .aborts m s'
      | .again s' => sendLoop env fuel s'

/-- A response outcome triggers the retry branch iff it is an error whose
status is 401 (`e.status().map_or(false, |s| s == StatusCode::UNAUTHORIZED)`). -/
def isUnauthorized : SendOutcome → Bool
  | .err e => e.status == some 401
  | .ok _ => false

/-- How a non-retried outcome leaves the loop: `Ok` is returned as `Ok`, any
other error as `RequestError::Http`. -/
def toResult : SendOutcome → SendResult
  | .ok r => .ok r
  | .err e => .errHttp e

/-- The cache filesystem right after the dispatcher saves a freshly acquired
token into an empty cache. -/
def savedFS (env : SendEnv) (t : AccessToken) : FS :=
  [(AccessToken.cache_file env.home env.profile,
    AccessToken.to_json { t with ttl := some (env.now + t.expires_in) })]

/-! ## Helper lemmas -/

theorem from_json_to_json (t : AccessToken) :
    AccessToken.from_json (AccessToken.to_json t) = some t := by
  obtain ⟨a, b, rt, e, sc, idt, tl⟩ := t
  cases rt <;> cases sc <;> cases idt <;> cases tl <;> rfl

theorem fsRead_fsWrite_self (fs : FS) (p : String) (v : Json) :
    fsRead (fsWrite fs p v) p = some v := by
  simp [fsRead, fsWrite]

theorem fsDelete_fsWrite_nil (p : String) (v : Json) :
    fsDelete (fsWrite [] p v) p = [] := by
  simp [fsDelete, fsWrite, List.filter]

theorem lastDotAux_eq_none (l : List Char) (h : ('.') ∉ l) : lastDotAux l = none := by
  induction l with
  | nil => rfl
  | cons c rest ih =>
      simp only [List.mem_cons, not_or] at h
      have hc : ¬c = '.' := fun hc => h.1 hc.symm
      simp [lastDotAux, ih h.2, hc]

/-! ## Claim theorems -/

/-- Claim C6: the auth-header template `X-Auth=Bearer $TOKEN` with access token
`abc123` parses to header name `X-Auth` and value `bearer abc123` (value
lower-cased, case-insensitive `$token` placeholder substituted); a template
without `=` fails with a configuration error; a template whose value side lacks
the placeholder fails with a configuration error. -/
theorem split_custom_header_spec :
    split_custom_header "X-Auth=Bearer $TOKEN" "abc123" = .ok ("X-Auth", "bearer abc123")
    ∧ split_custom_header "X-Auth" "abc123"
        = .error (.InvalidConfig "invalid custom_header_template")
    ∧ split_custom_header "X-Auth=Bearer xyz" "abc123"
        = .error (.InvalidConfig "cant find $token placeholder") :=
  ⟨rfl, rfl, rfl⟩

/-- Claim C10: `GrantType::from_str` maps exactly `password` to `Password`,
`authorization_code` and `auth` to `AuthorizationCode`, `client_credentials`
and `client` to `ClientCredentials`, and every other string (including case
variants of the accepted ones) to an `InvalidGrantType` error naming the
input. -/
theorem from_str_spec :
    GrantType.from_str "password" = .ok .Password
    ∧ GrantType.from_str "authorization_code" = .ok .AuthorizationCode
    ∧ GrantType.from_str "auth" = .ok .AuthorizationCode
    ∧ GrantType.from_str "client_credentials" = .ok .ClientCredentials
    ∧ GrantType.from_str "client" = .ok .ClientCredentials
    ∧ ∀ s : String,
        s ∉ ["password", "authorization_code", "auth", "client_credentials", "client"] →
        GrantType.from_str s = .error (.InvalidGrantType s) := by
  refine ⟨rfl, rfl, rfl, rfl, rfl, ?_⟩
  intro s hs
  simp only [List.mem_cons, List.not_mem_nil, or_false, not_or] at hs
  obtain ⟨h1, h2, h3, h4, h5⟩ := hs
  simp [GrantType.from_str, h1, h2, h3, h4, h5]

/-- Claim C10, witness: the case variant `Password` is rejected with an
`InvalidGrantType` error naming it. -/
theorem from_str_spec_witness :
    GrantType.from_str "Password" = .error (.InvalidGrantType "Password") :=
  from_str_spec.2.2.2.2.2 "Password" (by decide)

/-- Claim C9, counterexample: the profile name `a.b` contains no path separator,
yet its cache path is `<home>/.aurl/token/a.json` — `set_extension("json")`
replaces the `.b` suffix — and not `<home>/.aurl/token/a.b.json` as the claim
requires. -/
theorem cache_file_counterexample :
    AccessToken.cache_file "/home/user" "a.b" = "/home/user/.aurl/token/a.json"
    ∧ AccessToken.cache_file "/home/user" "a.b" ≠ "/home/user/.aurl/token/a.b.json" :=
  ⟨rfl, by decide⟩

/-- Claim C9 (amended): for every profile name containing no path separators
and no dot, the cache path is exactly `<home>/.aurl/token/<profile>.json`
(a profile containing a dot instead has the part after its last dot replaced
by `json`). -/
theorem cache_file_no_dot_spec (home profile : String) (h : ('.') ∉ profile.toList) :
    AccessToken.cache_file home profile = home ++ "/.aurl/token/" ++ profile ++ ".json" := by
  have hld : lastDotAux profile.toList = none := lastDotAux_eq_none profile.toList h
  show AccessToken.basedir home ++ "/token/" ++ set_extension_json profile = _
  rw [AccessToken.basedir]
  simp only [set_extension_json, hld]
  apply String.ext
  simp [String.data_append, List.append_assoc]

/-- Claim C9, witness: the dot-free profile name `default` maps to
`<home>/.aurl/token/default.json`. -/
theorem cache_file_no_dot_spec_witness :
    AccessToken.cache_file "/home/user" "default" = "/home/user/.aurl/token/default.json" :=
  cache_file_no_dot_spec "/home/user" "default" (by decide)

/-- Claim C5, counterexample: with the chain `[https://a.example:443, https://b.example:443]`
and next hop `https://b.example:443/next` — two prior hops, next hop same-origin
with the immediately preceding hop — the claim demands `follow`, but the policy
compares against the chain head `a.example` (`attempt.previous().get(0)`) and
stops. -/
theorem same_origin_policy_counterexample :
    same_origin_redirect_policy
        [⟨"https", "a.example", 443, "/"⟩, ⟨"https", "b.example", 443, "/"⟩]
        ⟨"https", "b.example", 443, "/next"⟩ = .stop
    ∧ Url.origin ⟨"https", "b.example", 443, "/next"⟩
        = Url.origin ⟨"https", "b.example", 443, "/"⟩
    ∧ ([(⟨"https", "a.example", 443, "/"⟩ : Url),
        ⟨"https", "b.example", 443, "/"⟩].length ≤ 5)
    ∧ ¬([(⟨"https", "a.example", 443, "/"⟩ : Url),
         ⟨"https", "b.example", 443, "/"⟩] = []) :=
  ⟨rfl, rfl, by decide, by decide⟩

/-- Claim C5 (amended): with zero prior hops the decision is stop; with more
than 5 prior hops the decision is stop; when the origin of the next hop differs
from the origin of the first URL in the chain (the original request — not the
immediately preceding hop) the decision is stop; otherwise it is follow. -/
theorem same_origin_policy_spec (previous : List Url) (next : Url) :
    (previous = [] → same_origin_redirect_policy previous next = .stop)
    ∧ (previous.length > 5 → same_origin_redirect_policy previous next = .stop)
    ∧ (∀ orig rest, previous = orig :: rest → previous.length ≤ 5 →
        orig.origin ≠ next.origin → same_origin_redirect_policy previous next = .stop)
    ∧ (∀ orig rest, previous = orig :: rest → previous.length ≤ 5 →
        orig.origin = next.origin → same_origin_redirect_policy previous next = .follow) := by
  refine ⟨?_, ?_, ?_, ?_⟩
  · intro he; subst he; rfl
  · intro hlen
    cases previous with
    | nil => rfl
    | cons a rest =>
        simp only [same_origin_redirect_policy, List.head?_cons]
        rw [if_pos hlen]
  · intro orig rest he hlen hne
    subst he
    simp only [same_origin_redirect_policy, List.head?_cons]
    rw [if_neg (Nat.not_lt.mpr hlen), if_pos hne]
  · intro orig rest he hlen heq
    subst he
    simp only [same_origin_redirect_policy, List.head?_cons]
    rw [if_neg (Nat.not_lt.mpr hlen), if_neg (fun hne => hne heq)]

/-- Claim C5, witness: all four decision shapes at concrete hops — zero prior
hops stop; a chain of 6 prior same-origin hops stops; one prior hop of a
different origin stops; one prior same-origin hop follows. -/
theorem same_origin_policy_spec_witness :
    same_origin_redirect_policy [] ⟨"https", "h.example", 443, "/"⟩ = .stop
    ∧ same_origin_redirect_policy
        [⟨"https", "h.example", 443, "/1"⟩, ⟨"https", "h.example", 443, "/2"⟩,
         ⟨"https", "h.example", 443, "/3"⟩, ⟨"https", "h.example", 443, "/4"⟩,
         ⟨"https", "h.example", 443, "/5"⟩, ⟨"https", "h.example", 443, "/6"⟩]
        ⟨"https", "h.example", 443, "/7"⟩ = .stop
    ∧ same_origin_redirect_policy [⟨"https", "h.example", 443, "/"⟩]
        ⟨"https", "evil.example", 443, "/"⟩ = .stop
    ∧ same_origin_redirect_policy [⟨"https", "h.example", 443, "/"⟩]
        ⟨"https", "h.example", 443, "/next"⟩ = .follow :=
  ⟨(same_origin_policy_spec [] ⟨"https", "h.example", 443, "/"⟩).1 rfl,
   (same_origin_policy_spec _ ⟨"https", "h.example", 443, "/7"⟩).2.1 (by decide),
   (same_origin_policy_spec _ ⟨"https", "evil.example", 443, "/"⟩).2.2.1 _ _ rfl
     (by decide) (by decide),
   (same_origin_policy_spec _ ⟨"https", "h.example", 443, "/next"⟩).2.2.2 _ _ rfl
     (by decide) (by decide)⟩

/-- Claim C3: `load_cache` returns `none` for a missing cache file, but for a
present, non-deserializable cache file the source runs
`serde_json::from_reader(reader).unwrap()` and the process dies instead of
returning `none` (its own `TODO` comment says the error should become `None`).
Here the cache file of profile `p` holds the JSON string `"garbage"`, which is
no `AccessToken` record. -/
theorem load_cache_corrupt_file_dies :
    AccessToken.load_cache "/h" [(AccessToken.cache_file "/h" "p", Json.str "garbage")] "p"
        = .aborts "load_cache: unwrap on serde_json::from_reader error"
    ∧ AccessToken.load_cache "/h" [] "p" = .ok none :=
  ⟨rfl, rfl⟩

/-- Claim C2: saving a token for a profile whose cache file already exists does
leave the existing file untouched, but it does not fail with a recoverable
error the caller downgrades to a warning: `save_cache` opens with
`create_new(true)` and `.unwrap()`, so the process dies before the caller's
`unwrap_or_else(warn)` can run. -/
theorem save_cache_existing_file_dies :
    AccessToken.save_cache "/h" 100 ⟨"new", "bearer", none, 60, none, none, none⟩
        [(AccessToken.cache_file "/h" "p",
          AccessToken.to_json ⟨"old", "bearer", none, 3600, none, none, some 500⟩)] "p"
      = .aborts "save_cache: unwrap on create_new open error" :=
  rfl

/-- Claim C7: with no pre-existing cache file for the profile, saving a token
and then loading it for the same profile succeeds and yields a value equal to
the saved token in every field, except that `ttl` is now populated with
`saved_at_epoch_seconds + expires_in`. -/
theorem save_then_load_roundtrip (home profile : String) (fs : FS) (t : AccessToken)
    (now : Nat) (hfree : fsRead fs (AccessToken.cache_file home profile) = none) :
    ∃ t' fs', AccessToken.save_cache home now t fs profile = .ok (.ok (t', fs'))
      ∧ AccessToken.load_cache home fs' profile = .ok (some t')
      ∧ t'.access_token = t.access_token ∧ t'.token_type = t.token_type
      ∧ t'.refresh_token = t.refresh_token ∧ t'.expires_in = t.expires_in
      ∧ t'.scope = t.scope ∧ t'.id_token = t.id_token
      ∧ t'.ttl = some (now + t.expires_in) := by
  refine ⟨{ t with ttl := some (AccessToken.calc_ttl now t.expires_in) },
          fsWrite fs (AccessToken.cache_file home profile)
            (AccessToken.to_json { t with ttl := some (AccessToken.calc_ttl now t.expires_in) }),
          ?_, ?_, rfl, rfl, rfl, rfl, rfl, rfl, rfl⟩
  · simp [AccessToken.save_cache, hfree]
  · simp [AccessToken.load_cache, fsRead_fsWrite_self, from_json_to_json]

/-- Claim C7, witness: round trip at a concrete token, profile and clock. -/
theorem save_then_load_roundtrip_witness :
    ∃ t' fs',
      AccessToken.save_cache "/h" 100 ⟨"aaaaaa", "bearer", none, 3600, some "root", none, none⟩
          [] "test" = .ok (.ok (t', fs'))
      ∧ AccessToken.load_cache "/h" fs' "test" = .ok (some t')
      ∧ t'.access_token = "aaaaaa" ∧ t'.token_type = "bearer"
      ∧ t'.refresh_token = none ∧ t'.expires_in = 3600
      ∧ t'.scope = some "root" ∧ t'.id_token = none
      ∧ t'.ttl = some (100 + 3600) :=
  save_then_load_roundtrip "/h" "test" []
    ⟨"aaaaaa", "bearer", none, 3600, some "root", none, none⟩ 100 rfl

/-- One iteration of the send loop from an empty cache, no template, and a
successful token acquisition: the token is acquired, saved, and the request
sent; a 401-status error deletes the cache again, anything else returns. -/
theorem sendStep_fresh (env : SendEnv) (t : AccessToken) (a : Nat)
    (htpl : env.tpl = none) (hacq : env.acquire a = .ok t) :
    sendStep env ⟨[], a, a⟩ =
      match env.responses a with
      | .ok r => .ret (.ok r) ⟨savedFS env t, a + 1, a + 1⟩
      | .err e =>
          if e.status == some 401 then .again ⟨[], a + 1, a + 1⟩
          else .ret (.errHttp e) ⟨savedFS env t, a + 1, a + 1⟩ := by
  obtain ⟨home, profile, tpl, now, acquire, responses⟩ := env
  simp only at htpl hacq
  subst htpl
  simp [sendStep, AccessToken.load_cache, AccessToken.save_cache, fsRead, hacq,
        AccessToken.remove_cache, savedFS, AccessToken.calc_ttl, fsWrite, fsDelete,
        List.filter, Option.getD]

/-- The send loop from an empty cache with `n` consecutive unauthorized
responses starting at attempt index `a`, then a non-unauthorized outcome:
every 401 deletes the cache and re-runs acquisition; the first other outcome
returns.  Generalized over the starting attempt count for the induction. -/
theorem sendLoop_retry_aux (env : SendEnv) (t : AccessToken)
    (htpl : env.tpl = none) (hacq : ∀ i, env.acquire i = .ok t) :
    ∀ n a fuel, n < fuel →
      (∀ i, i < n → isUnauthorized (env.responses (a + i)) = true) →
      isUnauthorized (env.responses (a + n)) = false →
      sendLoop env fuel ⟨[], a, a⟩
        = .out (toResult (env.responses (a + n))) ⟨savedFS env t, a + n + 1, a + n + 1⟩ := by
  intro n
  induction n with
  | zero =>
      intro a fuel hf h401 hlast
      obtain ⟨fuel, rfl⟩ : ∃ f, fuel = f + 1 := ⟨fuel - 1, by omega⟩
      rw [sendLoop, sendStep_fresh env t a htpl (hacq a)]
      rw [Nat.add_zero] at hlast
      cases hr : env.responses a with
      | ok r => simp [hr, toResult]
      | err e =>
          rw [hr] at hlast
          simp only [isUnauthorized] at hlast
          simp [hr, hlast, toResult]
  | succ n ih =>
      intro a fuel hf h401 hlast
      obtain ⟨fuel, rfl⟩ : ∃ f, fuel = f + 1 := ⟨fuel - 1, by omega⟩
      rw [sendLoop, sendStep_fresh env t a htpl (hacq a)]
      have h0 : isUnauthorized (env.responses a) = true := by
        have := h401 0 (by omega)
        rwa [Nat.add_zero] at this
      cases hr : env.responses a with
      | ok r => rw [hr] at h0; simp [isUnauthorized] at h0
      | err e =>
          rw [hr] at h0
          simp only [isUnauthorized] at h0
          simp only [h0, if_true]
          have ih' := ih (a + 1) fuel (by omega)
            (fun i hi => by
              have := h401 (i + 1) (by omega)
              rwa [show a + (i + 1) = a + 1 + i by omega] at this)
            (by rwa [show a + 1 + n = a + (n + 1) by omega])
          rw [ih', show a + 1 + n = a + (n + 1) by omega]

/-- Claim C1, counterexample: with an empty cache, a grant strategy that always
succeeds, and final-request outcomes 401, 401, then success, `send` performs
three request attempts (and three grant acquisitions) and returns the third
attempt's result — the loop has no retry counter, so it is not bounded to 2
attempts with the second result returned. -/
theorem send_retry_counterexample :
    sendLoop
        ⟨"/h", "p", none, 100,
         fun _ => .ok ⟨"abc", "bearer", none, 3600, none, none, none⟩,
         fun i => if i < 2 then .err ⟨some 401⟩ else .ok 7⟩ 10 ⟨[], 0, 0⟩
      = .out (.ok 7)
          ⟨[(AccessToken.cache_file "/h" "p",
             AccessToken.to_json ⟨"abc", "bearer", none, 3600, none, none, some 3700⟩)],
           3, 3⟩ :=
  rfl

/-- Claim C1 (amended): if the final request's response is an error whose
status is unauthorized, the dispatcher deletes the cached token for the profile
and repeats the acquire-and-send sequence; any other outcome (success or a
different error) ends the loop immediately and that result is returned as-is.
The repetition is unbounded — there is no retry counter, so `n` consecutive
unauthorized responses produce `n + 1` request attempts (and `n + 1` token
acquisitions), and only the first non-unauthorized outcome is returned. -/
theorem send_unauthorized_retry_spec (env : SendEnv) (t : AccessToken) (n fuel : Nat)
    (htpl : env.tpl = none) (hacq : ∀ i, env.acquire i = .ok t) (hfuel : n < fuel)
    (h401 : ∀ i, i < n → isUnauthorized (env.responses i) = true)
    (hlast : isUnauthorized (env.responses n) = false) :
    sendLoop env fuel ⟨[], 0, 0⟩
      = .out (toResult (env.responses n)) ⟨savedFS env t, n + 1, n + 1⟩ := by
  have := sendLoop_retry_aux env t htpl hacq n 0 fuel hfuel
    (fun i hi => by simpa using h401 i hi) (by simpa using hlast)
  simpa using this

/-- Claim C1, witness: two consecutive unauthorized responses then a success —
three attempts, the success returned. -/
theorem send_unauthorized_retry_spec_witness :
    sendLoop
        ⟨"/h2", "q", none, 50,
         fun _ => .ok ⟨"tok", "bearer", none, 60, none, none, none⟩,
         fun i => if i < 2 then .err ⟨some 401⟩ else .ok 9⟩ 5 ⟨[], 0, 0⟩
      = .out (.ok 9)
          ⟨[(AccessToken.cache_file "/h2" "q",
             AccessToken.to_json ⟨"tok", "bearer", none, 60, none, none, some 110⟩)],
           3, 3⟩ :=
  send_unauthorized_retry_spec
    ⟨"/h2", "q", none, 50,
     fun _ => .ok ⟨"tok", "bearer", none, 60, none, none, none⟩,
     fun i => if i < 2 then .err ⟨some 401⟩ else .ok 9⟩
    ⟨"tok", "bearer", none, 60, none, none, none⟩ 2 5 rfl (fun _ => rfl) (by omega)
    (fun i hi => by
      have h2 : i < 2 := hi
      simp [isUnauthorized, h2])
    rfl

/-- Claim C4: with a pre-existing valid cache file for the profile the grant
strategy is indeed never invoked (the final state records zero acquisitions),
but the dispatcher does not proceed to the final request: `save_cache` is
called on every iteration, its `create_new` open fails on the existing file,
and the `.unwrap()` kills the process with zero request attempts made. -/
theorem send_with_cached_token_dies :
    AccessToken.load_cache "/h"
        [(AccessToken.cache_file "/h" "p",
          AccessToken.to_json ⟨"abc", "bearer", none, 3600, none, none, some 500⟩)] "p"
      = .ok (some ⟨"abc", "bearer", none, 3600, none, none, some 500⟩)
    ∧ sendLoop
        ⟨"/h", "p", none, 100,
         fun _ => .ok ⟨"abc", "bearer", none, 3600, none, none, none⟩,
         fun _ => .ok 7⟩ 10
        ⟨[(AccessToken.cache_file "/h" "p",
           AccessToken.to_json ⟨"abc", "bearer", none, 3600, none, none, some 500⟩)], 0, 0⟩
      = .aborts "save_cache: unwrap on create_new open error"
          ⟨[(AccessToken.cache_file "/h" "p",
             AccessToken.to_json ⟨"abc", "bearer", none, 3600, none, none, some 500⟩)],
           0, 0⟩ :=
  ⟨rfl, rfl⟩

/-- Claim C8: for every grant variant and config, if some field required by the
variant is absent then `get_access_token` fails with an `InvalidConfig` error
naming the first absent required field (in accessor order), before any
token-endpoint request is built; if every required field is present the token
request is built successfully — in particular `client_secret`, which no variant
requires, may be absent without error. -/
theorem get_access_token_missing_field_spec (gt : GrantType) (config : OAuth2Config)
    (state auth_code : String) :
    (∀ f, firstMissing gt config = some f →
        gt.get_access_token config state auth_code = .error (.InvalidConfig (Field.name f))
        ∧ f ∈ requiredFields gt ∧ config.fieldVal f = none)
    ∧ (firstMissing gt config = none →
        ∃ req, gt.get_access_token config state auth_code = .ok req) := by
  obtain ⟨ae, te, cid, cs, sc, un, pw, g, rd, dct, dua, dhat⟩ := config
  cases gt with
  | Password =>
      cases te <;> cases cid <;> cases sc <;> cases un <;> cases pw <;>
      constructor <;>
      first
        | (intro f hf
           simp only [firstMissing, requiredFields, OAuth2Config.fieldVal, List.find?,
                      Option.isNone_none, Option.isNone_some, Option.some.injEq] at hf
           first
             | exact Option.noConfusion hf
             | (subst hf; exact ⟨rfl, by decide, rfl⟩))
        | (intro hnone
           first
             | exact ⟨_, rfl⟩
             | (simp only [firstMissing, requiredFields, OAuth2Config.fieldVal, List.find?,
                           Option.isNone_none, Option.isNone_some] at hnone
                exact Option.noConfusion hnone))
  | ClientCredentials =>
      cases te <;> cases cid <;> cases sc <;>
      constructor <;>
      first
        | (intro f hf
           simp only [firstMissing, requiredFields, OAuth2Config.fieldVal, List.find?,
                      Option.isNone_none, Option.isNone_some, Option.some.injEq] at hf
           first
             | exact Option.noConfusion hf
             | (subst hf; exact ⟨rfl, by decide, rfl⟩))
        | (intro hnone
           first
             | exact ⟨_, rfl⟩
             | (simp only [firstMissing, requiredFields, OAuth2Config.fieldVal, List.find?,
                           Option.isNone_none, Option.isNone_some] at hnone
                exact Option.noConfusion hnone))
  | AuthorizationCode =>
      cases ae <;> cases te <;> cases cid <;> cases sc <;> cases rd <;>
      constructor <;>
      first
        | (intro f hf
           simp only [firstMissing, requiredFields, OAuth2Config.fieldVal, List.find?,
                      Option.isNone_none, Option.isNone_some, Option.some.injEq] at hf
           first
             | exact Option.noConfusion hf
             | (subst hf; exact ⟨rfl, by decide, rfl⟩))
        | (intro hnone
           first
             | exact ⟨_, rfl⟩
             | (simp only [firstMissing, requiredFields, OAuth2Config.fieldVal, List.find?,
                           Option.isNone_none, Option.isNone_some] at hnone
                exact Option.noConfusion hnone))

/-- Claim C8, witness: for a Password-grant config lacking only `username`, the
result is the missing-field error naming `username`; for a ClientCredentials
config with every required field present but no `client_secret`, a token
request is built. -/
theorem get_access_token_missing_field_spec_witness :
    (GrantType.Password.get_access_token
        ⟨none, some "https://as/token", some "cid", some "sec", some "s", none,
         some "pw", .Password, none, none, none, none⟩ "st" "code"
      = .error (.InvalidConfig "username")
      ∧ Field.username ∈ requiredFields .Password
      ∧ OAuth2Config.fieldVal
          ⟨none, some "https://as/token", some "cid", some "sec", some "s", none,
           some "pw", .Password, none, none, none, none⟩ .username = none)
    ∧ ∃ req, GrantType.ClientCredentials.get_access_token
        ⟨none, some "https://as/token", some "cid", none, some "s", none, none,
         .ClientCredentials, none, none, none, none⟩ "st" "code" = .ok req :=
  ⟨(get_access_token_missing_field_spec .Password
      ⟨none, some "https://as/token", some "cid", some "sec", some "s", none,
       some "pw", .Password, none, none, none, none⟩ "st" "code").1 .username rfl,
   (get_access_token_missing_field_spec .ClientCredentials
      ⟨none, some "https://as/token", some "cid", none, some "s", none, none,
       .ClientCredentials, none, none, none, none⟩ "st" "code").2 rfl⟩

end Aurl
